import Mathlib

/-!
Verification of the booking capture flow of the smart-move-navigator repository:
the multi-step booking wizard (step gating, price computation), the offline
pending-booking queue kept in browser local storage, and the reconnection sync
effect. The definitions below are a shallow embedding of the Booking page
component; each doc comment points at the source construct it embeds.
-/

namespace SmartMove

/-- Modelled from the spec: a Vehicle of the Catalog Provider. The catalog data
module (data/cars) is not among the given sources; the field set is taken from
the spec (identifier, display name, category, seat count, hourly price, image
reference) and from how the booking page reads car entries. -/
structure Car where
  id : String
  name : String
  carType : String
  seats : Nat
  pricePerHour : Nat
  image : String
deriving DecidableEq

/-- Modelled from the spec: the Catalog Provider lookup getVehicle(id), imported
by the booking page as getCarById from the data/cars module, which is not among
the given sources; returns the catalog entry with the requested id, or none. -/
def getCarById (catalog : List Car) (id : String) : Option Car :=
  catalog.find? (fun c => c.id == id)

/-- Embeds the BookingData interface of the Booking page: carId,
pickupLocation, dropoffLocation, date (a JS Date or undefined, embedded as an
optional epoch-millisecond count), time (a string, empty when unset), and
duration (a positive-intended hour count chosen from a select of 1..24). -/
structure BookingData where
  carId : String
  pickupLocation : String
  dropoffLocation : String
  date : Option Nat
  time : String
  duration : Nat
deriving DecidableEq

/-- Embeds the selectedCar binding: booking.carId is looked up with getCarById
only when non-empty (an empty string is falsy in the source conditional). -/
def selectedCar (catalog : List Car) (b : BookingData) : Option Car :=
  if b.carId == "" then none else getCarById catalog b.carId

/-- Embeds calculatePrice: zero when no car is selected, otherwise the selected
car's pricePerHour times booking.duration. -/
def calculatePrice (catalog : List Car) (b : BookingData) : Nat :=
  match selectedCar catalog b with
  | none => 0
  | some car => car.pricePerHour * b.duration

/-- Embeds canProceed: a switch on the current step index. Step 0 requires a
truthy (non-empty) carId; step 1 requires both locations non-empty; step 2
requires date set, time non-empty and duration strictly positive; every later
step returns true. JS truthiness of a string is non-emptiness and of an
optional Date is presence. -/
def canProceed (step : Nat) (b : BookingData) : Bool :=
  match step with
  | 0 => b.carId != ""
  | 1 => b.pickupLocation != "" && b.dropoffLocation != ""
  | 2 => b.date.isSome && b.time != "" && decide (0 < b.duration)
  | _ => true

/-- Embeds the wizard component state that the step navigation touches: the
current step index and the booking draft. -/
structure WizardState where
  step : Nat
  booking : BookingData
deriving DecidableEq

/-- Embeds the Next button: rendered only while step is below the final index 3
(STEPS has length 4) and disabled unless canProceed holds; clicking it moves to
step + 1 and leaves the booking draft untouched. Returns none when the
transition is not available. -/
def nextStep (w : WizardState) : Option WizardState :=
  if w.step < 3 && canProceed w.step w.booking then
    some { w with step := w.step + 1 }
  else
    none

/-- Embeds the Previous button: rendered only while step is positive; clicking
it moves to step - 1 and leaves the booking draft untouched. Returns none in
the initial step, where the button is not rendered. -/
def prevStep (w : WizardState) : Option WizardState :=
  if 0 < w.step then some { w with step := w.step - 1 } else none

/-- Modelled from the spec: the ISO-8601 rendering used by the source through
Date.toISOString when freezing a draft. A JS Date is embedded as its
epoch-millisecond count and its ISO rendering as the numeral string of that
count; the verified properties use only that the rendering is a definite
string per date value. -/
def toISOString (ms : Nat) : String := toString ms

/-- Embeds the frozen bookingData object built by handleSubmit: the draft
fields spread verbatim, the date replaced by its optional ISO string (the
optional-chaining call leaves it undefined when unset), the derived price, and
a creation timestamp. -/
structure PendingRecord where
  carId : String
  pickupLocation : String
  dropoffLocation : String
  date : Option String
  time : String
  duration : Nat
  price : Nat
  createdAt : String
deriving DecidableEq

/-- Builds the frozen record exactly as handleSubmit does, given the catalog,
the current draft and the creation timestamp string. -/
def mkBookingRecord (catalog : List Car) (b : BookingData) (now : String) :
    PendingRecord :=
  { carId := b.carId
    pickupLocation := b.pickupLocation
    dropoffLocation := b.dropoffLocation
    date := b.date.map toISOString
    time := b.time
    duration := b.duration
    price := calculatePrice catalog b
    createdAt := now }

/-- The observable outcome of one handleSubmit call: the pendingBookings store
afterwards, the isSubmitted flag, and the list of remote booking API calls the
call issued (the source issues none). -/
structure SubmitOutcome where
  store : List PendingRecord
  isSubmitted : Bool
  remoteCalls : List PendingRecord
deriving DecidableEq

/-- Embeds handleSubmit: the frozen record is built; when offline it is pushed
onto the pendingBookings list read from local storage and the list is written
back; in both branches isSubmitted is set to true; no remote booking call is
issued in either branch. -/
def handleSubmit (catalog : List Car) (isOnline : Bool) (b : BookingData)
    (store : List PendingRecord) (now : String) : SubmitOutcome :=
  let record := mkBookingRecord catalog b now
  if !isOnline then
    { store := store ++ [record], isSubmitted := true, remoteCalls := [] }
  else
    { store := store, isSubmitted := true, remoteCalls := [] }

/-- Embeds the offline-sync useEffect: when online and the stored pending list
is non-empty, the list is logged to the console and the store is reset to the
empty array; otherwise nothing changes. The second component is the list of
remote booking submissions attempted during the pass, which the source leaves
empty (the comment in the source defers the backend call to a real app). -/
def syncEffect (isOnline : Bool) (store : List PendingRecord) :
    List PendingRecord × List PendingRecord :=
  if isOnline then
    if 0 < store.length then ([], []) else (store, [])
  else
    (store, [])

/-- A JSON value as produced by JSON.parse on the stored queue: the source
stores only strings and (integral) numbers inside objects inside one array. -/
inductive Json where
  | null : Json
  | str : String → Json
  | num : Nat → Json
  | arr : List Json → Json
  | obj : List (String × Json) → Json

/-- Encodes one pending record the way JSON.stringify serializes the frozen
bookingData object: fields in insertion order, a key whose value is undefined
(an unset date) omitted entirely. -/
def encodeRecord (r : PendingRecord) : Json :=
  Json.obj
    ([("carId", Json.str r.carId),
      ("pickupLocation", Json.str r.pickupLocation),
      ("dropoffLocation", Json.str r.dropoffLocation)] ++
     (match r.date with
      | some d => [("date", Json.str d)]
      | none => []) ++
     [("time", Json.str r.time),
      ("duration", Json.num r.duration),
      ("price", Json.num r.price),
      ("createdAt", Json.str r.createdAt)])

/-- Reads a string-valued field from a parsed JSON object. -/
def asStr : Json → Option String
  | Json.str s => some s
  | _ => none

/-- Reads a number-valued field from a parsed JSON object. -/
def asNum : Json → Option Nat
  | Json.num n => some n
  | _ => none

/-- Decodes one pending record from a parsed JSON value, by key lookup as a
consumer of JSON.parse output would: every field except date is required, and
an absent date key yields an unset date, mirroring the undefined field that
JSON.stringify dropped. -/
def decodeRecord : Json → Option PendingRecord
  | Json.obj fields => do
      let carId ← (fields.lookup "carId").bind asStr
      let pickupLocation ← (fields.lookup "pickupLocation").bind asStr
      let dropoffLocation ← (fields.lookup "dropoffLocation").bind asStr
      let time ← (fields.lookup "time").bind asStr
      let duration ← (fields.lookup "duration").bind asNum
      let price ← (fields.lookup "price").bind asNum
      let createdAt ← (fields.lookup "createdAt").bind asStr
      pure
        { carId := carId
          pickupLocation := pickupLocation
          dropoffLocation := dropoffLocation
          date := (fields.lookup "date").bind asStr
          time := time
          duration := duration
          price := price
          createdAt := createdAt }
  | _ => none

/-- Encodes the whole pendingBookings store as the JSON array that
JSON.stringify writes to local storage. -/
def encodeStore (l : List PendingRecord) : Json :=
  Json.arr (l.map encodeRecord)

/-- Decodes the whole stored queue back from its JSON array. -/
def decodeStore : Json → Option (List PendingRecord)
  | Json.arr xs => xs.mapM decodeRecord
  | _ => none

/-- A sample queued record used by the C1 evaluation. -/
def c1rec1 : PendingRecord :=
  { carId := "1", pickupLocation := "Kigali", dropoffLocation := "Huye",
    date := some "1700000000000", time := "09:00", duration := 2, price := 40,
    createdAt := "1700000000001" }

/-- A second sample queued record used by the C1 evaluation. -/
def c1rec2 : PendingRecord :=
  { carId := "2", pickupLocation := "Musanze", dropoffLocation := "Rubavu",
    date := some "1700000100000", time := "10:00", duration := 4, price := 100,
    createdAt := "1700000100001" }

/-- C1: the spec requires that a drain pass removes a pending record only after
its remote submission is acknowledged successful and, on a failure, leaves
every unconfirmed record queued; the sync effect in the source instead resets
the store to the empty array while issuing no remote submission at all, so
with two queued records both are removed although neither was confirmed. -/
theorem c1_drain_clears_queue_without_any_submission :
    syncEffect true [c1rec1, c1rec2] = ([], []) := rfl

/-- A sample catalog used by the C2 evaluation. -/
def c2catalog : List Car :=
  [{ id := "1", name := "Land Cruiser", carType := "SUV", seats := 7,
     pricePerHour := 25, image := "lc.jpg" }]

/-- A completed sample draft used by the C2 evaluation. -/
def c2draft : BookingData :=
  { carId := "1", pickupLocation := "Kigali", dropoffLocation := "Huye",
    date := some 1700000000000, time := "09:00", duration := 2 }

/-- C2: the spec requires an online submission whose remote write is rejected
to be surfaced as a failure without reaching Submitted; the source never
contacts the remote booking API on an online submit and sets the submitted
flag unconditionally, so a rejection can never occur nor be surfaced:
evaluated on a completed draft, the online submit issues no remote call,
leaves the store unchanged and still reports Submitted. -/
theorem c2_online_submit_issues_no_remote_call_and_always_submits :
    handleSubmit c2catalog true c2draft [] "1700000000002" =
      { store := [], isSubmitted := true, remoteCalls := [] } := rfl

/-- C3: an offline submit of a completed draft appends exactly one frozen
record to the pending queue, after the existing entries; the record carries
the draft fields, the derived price (the selected car's hourly rate times the
duration) and the creation timestamp; the wizard reports Submitted; and no
remote booking call is issued. -/
theorem c3_offline_submit_enqueues_exactly_one_record
    (catalog : List Car) (b : BookingData) (store : List PendingRecord)
    (now : String) (v : Car)
    (hv : selectedCar catalog b = some v)
    (h0 : canProceed 0 b = true) (h1 : canProceed 1 b = true)
    (h2 : canProceed 2 b = true) :
    (handleSubmit catalog false b store now).store
        = store ++ [mkBookingRecord catalog b now]
      ∧ (handleSubmit catalog false b store now).isSubmitted = true
      ∧ (handleSubmit catalog false b store now).remoteCalls = []
      ∧ (mkBookingRecord catalog b now).carId = b.carId
      ∧ (mkBookingRecord catalog b now).pickupLocation = b.pickupLocation
      ∧ (mkBookingRecord catalog b now).dropoffLocation = b.dropoffLocation
      ∧ (mkBookingRecord catalog b now).date = b.date.map toISOString
      ∧ (mkBookingRecord catalog b now).time = b.time
      ∧ (mkBookingRecord catalog b now).duration = b.duration
      ∧ (mkBookingRecord catalog b now).price = v.pricePerHour * b.duration
      ∧ (mkBookingRecord catalog b now).createdAt = now := by
  refine ⟨rfl, rfl, rfl, rfl, rfl, rfl, rfl, rfl, rfl, ?_, rfl⟩
  simp [mkBookingRecord, calculatePrice, hv]

/-- The car of the spec offline-submit scenario: hourly rate 20. -/
def c3car : Car :=
  { id := "v1", name := "Sedan One", carType := "Sedan", seats := 5,
    pricePerHour := 20, image := "s1.jpg" }

/-- The catalog of the spec offline-submit scenario. -/
def c3catalog : List Car := [c3car]

/-- The completed draft of the spec offline-submit scenario: car v1, 3-hour
duration. -/
def c3draft : BookingData :=
  { carId := "v1", pickupLocation := "Kigali", dropoffLocation := "Huye",
    date := some 1700000000000, time := "09:00", duration := 3 }

/-- C3 witness: the spec scenario, a 3-hour booking of a car with hourly rate
20, queued offline with derived price 20 times 3, which is 60. -/
theorem c3_offline_submit_enqueues_exactly_one_record_witness :
    selectedCar c3catalog c3draft = some c3car
      ∧ canProceed 0 c3draft = true
      ∧ canProceed 1 c3draft = true
      ∧ canProceed 2 c3draft = true
      ∧ ((handleSubmit c3catalog false c3draft [] "1700000000005").store
            = [] ++ [mkBookingRecord c3catalog c3draft "1700000000005"]
          ∧ (handleSubmit c3catalog false c3draft [] "1700000000005").isSubmitted
              = true
          ∧ (handleSubmit c3catalog false c3draft [] "1700000000005").remoteCalls
              = []
          ∧ (mkBookingRecord c3catalog c3draft "1700000000005").carId
              = c3draft.carId
          ∧ (mkBookingRecord c3catalog c3draft "1700000000005").pickupLocation
              = c3draft.pickupLocation
          ∧ (mkBookingRecord c3catalog c3draft "1700000000005").dropoffLocation
              = c3draft.dropoffLocation
          ∧ (mkBookingRecord c3catalog c3draft "1700000000005").date
              = c3draft.date.map toISOString
          ∧ (mkBookingRecord c3catalog c3draft "1700000000005").time
              = c3draft.time
          ∧ (mkBookingRecord c3catalog c3draft "1700000000005").duration
              = c3draft.duration
          ∧ (mkBookingRecord c3catalog c3draft "1700000000005").price
              = c3car.pricePerHour * c3draft.duration
          ∧ (mkBookingRecord c3catalog c3draft "1700000000005").createdAt
              = "1700000000005") :=
  ⟨by decide, by decide, by decide, by decide,
   c3_offline_submit_enqueues_exactly_one_record c3catalog c3draft []
     "1700000000005" c3car (by decide) (by decide) (by decide) (by decide)⟩

/-- C9: from every non-initial step, retreat is available, moves one step back
and leaves the whole booking draft (hence each of its fields) unchanged. -/
theorem c9_retreat_available_and_preserves_draft
    (w : WizardState) (h : w.step ≠ 0) :
    prevStep w = some { step := w.step - 1, booking := w.booking } := by
  simp [prevStep, Nat.pos_of_ne_zero h]

/-- C9 witness: retreat from the confirmation step of a concrete wizard
state. -/
theorem c9_retreat_available_and_preserves_draft_witness :
    (3 : Nat) ≠ 0
      ∧ prevStep
          { step := 3,
            booking :=
              { carId := "1", pickupLocation := "Kigali",
                dropoffLocation := "Huye", date := some 1700000000000,
                time := "09:00", duration := 2 } }
          = some
            { step := 3 - 1,
              booking :=
                { carId := "1", pickupLocation := "Kigali",
                  dropoffLocation := "Huye", date := some 1700000000000,
                  time := "09:00", duration := 2 } } :=
  ⟨by decide,
   c9_retreat_available_and_preserves_draft
     { step := 3,
       booking :=
         { carId := "1", pickupLocation := "Kigali",
           dropoffLocation := "Huye", date := some 1700000000000,
           time := "09:00", duration := 2 } } (by decide)⟩

/-- A draft whose duration 25 lies outside the 1..24 range the spec requires
and whose date, epoch millisecond 0, lies before the concrete current date
used alongside it. -/
def c4bad : BookingData :=
  { carId := "1", pickupLocation := "Kigali", dropoffLocation := "Huye",
    date := some 0, time := "09:00", duration := 25 }

/-- C4 counterexample: from the date-and-time step the advance transition is
available for a draft whose duration is 25, outside the claimed range 1..24,
and whose date, epoch 0, is earlier than the concrete current date
1700000000000: canProceed checks only that the date is set, the time is
non-empty and the duration is positive. -/
theorem c4_counterexample :
    (nextStep { step := 2, booking := c4bad }).isSome = true
      ∧ ¬ (1 ≤ c4bad.duration ∧ c4bad.duration ≤ 24)
      ∧ c4bad.date = some 0 ∧ 0 < 1700000000000 := by decide

/-- C4 amended: from the date-and-time step, advance is available exactly when
the date is set, the time is non-empty and the duration is strictly positive;
the gate compares the date against no current date and imposes no upper bound
on the duration (the calendar widget and the duration select restrict what a
user can enter, but the gate itself does not). -/
theorem c4_datetime_gate (b : BookingData) :
    (nextStep { step := 2, booking := b }).isSome = true
      ↔ (b.date.isSome = true ∧ b.time ≠ "" ∧ 0 < b.duration) := by
  simp [nextStep, canProceed, and_assoc]

/-- The catalog used by the C5 counterexample. -/
def c5catalog : List Car :=
  [{ id := "1", name := "Land Cruiser", carType := "SUV", seats := 7,
     pricePerHour := 25, image := "lc.jpg" }]

/-- A draft whose carId is a non-empty string matching no catalog entry. -/
def c5bad : BookingData :=
  { carId := "ghost", pickupLocation := "", dropoffLocation := "",
    date := none, time := "", duration := 1 }

/-- C5 counterexample: from the vehicle step the advance transition is
available for a draft whose carId is the non-empty string ghost although no
catalog entry has that id: canProceed checks only that carId is non-empty and
never consults the catalog. -/
theorem c5_counterexample :
    (nextStep { step := 0, booking := c5bad }).isSome = true
      ∧ c5bad.carId ≠ ""
      ∧ getCarById c5catalog c5bad.carId = none := by decide

/-- C5 amended: from the vehicle step, advance is available exactly when carId
is a non-empty string; membership in the catalog is not checked. -/
theorem c5_vehicle_gate (b : BookingData) :
    (nextStep { step := 0, booking := b }).isSome = true ↔ b.carId ≠ "" := by
  simp [nextStep, canProceed]

/-- C6: whenever a catalog car is selected, the computed price is exactly the
car's hourly rate times the current duration, and because the price is
recomputed from the current draft on every evaluation, changing the duration
or the selected car yields the price of the new inputs with no stale value. -/
theorem c6_price_exact_and_recomputed
    (catalog : List Car) (b : BookingData) (v : Car)
    (hv : selectedCar catalog b = some v)
    (hd1 : 1 ≤ b.duration) (hd2 : b.duration ≤ 24) :
    calculatePrice catalog b = v.pricePerHour * b.duration
      ∧ (∀ d2 : Nat, calculatePrice catalog { b with duration := d2 }
            = v.pricePerHour * d2)
      ∧ (∀ (id2 : String) (v2 : Car),
            selectedCar catalog { b with carId := id2 } = some v2 →
            calculatePrice catalog { b with carId := id2 }
              = v2.pricePerHour * b.duration) := by
  refine ⟨?_, ?_, ?_⟩
  · simp [calculatePrice, hv]
  · intro d2
    have hv2 : selectedCar catalog { b with duration := d2 } = some v := by
      simpa [selectedCar] using hv
    simp [calculatePrice, hv2]
  · intro id2 v2 h2
    simp [calculatePrice, h2]

/-- The first car of the C6 witness catalog, with hourly rate 20. -/
def c6car1 : Car :=
  { id := "v1", name := "Sedan One", carType := "Sedan", seats := 5,
    pricePerHour := 20, image := "s1.jpg" }

/-- The second car of the C6 witness catalog, with hourly rate 30. -/
def c6car2 : Car :=
  { id := "v2", name := "Van Two", carType := "Van", seats := 9,
    pricePerHour := 30, image := "v2.jpg" }

/-- The catalog used by the C6 witness: two cars with distinct rates. -/
def c6catalog : List Car := [c6car1, c6car2]

/-- The draft used by the C6 witness: car v1, duration 3. -/
def c6draft : BookingData :=
  { carId := "v1", pickupLocation := "Kigali", dropoffLocation := "Huye",
    date := some 1700000000000, time := "09:00", duration := 3 }

/-- C6 witness: with car v1 at rate 20 and duration 3 the price is 60; after
changing the duration to 5 it is 100, and after switching to car v2 at rate
30 it is 90. -/
theorem c6_price_exact_and_recomputed_witness :
    selectedCar c6catalog c6draft = some c6car1
      ∧ 1 ≤ c6draft.duration ∧ c6draft.duration ≤ 24
      ∧ calculatePrice c6catalog c6draft = c6car1.pricePerHour * c6draft.duration
      ∧ calculatePrice c6catalog { c6draft with duration := 5 }
          = c6car1.pricePerHour * 5
      ∧ (selectedCar c6catalog { c6draft with carId := "v2" } = some c6car2 →
          calculatePrice c6catalog { c6draft with carId := "v2" }
            = c6car2.pricePerHour * c6draft.duration) :=
  ⟨by decide, by decide, by decide,
   (c6_price_exact_and_recomputed c6catalog c6draft c6car1 (by decide)
       (by decide) (by decide)).1,
   (c6_price_exact_and_recomputed c6catalog c6draft c6car1 (by decide)
       (by decide) (by decide)).2.1 5,
   fun h2 =>
     (c6_price_exact_and_recomputed c6catalog c6draft c6car1 (by decide)
         (by decide) (by decide)).2.2 "v2" c6car2 h2⟩

/-- A first sample queued record used by the C7 counterexample, with the
earlier creation timestamp. -/
def c7rec1 : PendingRecord :=
  { carId := "1", pickupLocation := "Kigali", dropoffLocation := "Huye",
    date := some "1700000000000", time := "09:00", duration := 2, price := 40,
    createdAt := "1700000000001" }

/-- A second sample queued record used by the C7 counterexample, with the
later creation timestamp. -/
def c7rec2 : PendingRecord :=
  { carId := "2", pickupLocation := "Musanze", dropoffLocation := "Rubavu",
    date := some "1700000200000", time := "10:00", duration := 4, price := 100,
    createdAt := "1700000200001" }

/-- C7 counterexample: with two records queued in timestamp order, a drain
pass while online attempts no record submission at all, so in particular the
earlier record is never attempted, contrary to the claim that the drain
attempts it before the later one. -/
theorem c7_counterexample :
    (syncEffect true [c7rec1, c7rec2]).2 = []
      ∧ c7rec1 ∉ (syncEffect true [c7rec1, c7rec2]).2 := by decide

/-- C7 amended: enqueue appends the new record after every existing record,
preserving first-in-first-out order by creation timestamp, and a drain pass
attempts no individual record submission (the source clears the queue in one
batch), so no pass ever attempts a later record before an earlier one. -/
theorem c7_enqueue_fifo_and_drain_attempts_none
    (catalog : List Car) (b : BookingData) (store : List PendingRecord)
    (now : String) :
    (handleSubmit catalog false b store now).store
        = store ++ [mkBookingRecord catalog b now]
      ∧ (∀ (online : Bool) (s : List PendingRecord),
          (syncEffect online s).2 = []) := by
  refine ⟨rfl, ?_⟩
  intro online s
  cases online
  · rfl
  · by_cases h : 0 < s.length <;> simp [syncEffect, h]

/-- C8: encoding a pending record to the JSON shape that the stringify call
writes to local storage and decoding it back yields the identical record,
field for field, including the stored date and creation timestamp strings. -/
theorem c8_record_round_trip (r : PendingRecord) :
    decodeRecord (encodeRecord r) = some r := by
  cases r with
  | mk carId pickupLocation dropoffLocation date time duration price
      createdAt => cases date <;> rfl

/-- C10: an online submit issues no remote booking call of any kind, leaves
the pending-queue store exactly as it was, and still sets the submitted flag
unconditionally, so the online booking data is handed to no collaborator. -/
theorem c10_online_submit_discards_booking
    (catalog : List Car) (b : BookingData) (store : List PendingRecord)
    (now : String) :
    handleSubmit catalog true b store now =
      { store := store, isSubmitted := true, remoteCalls := [] } := rfl

end SmartMove
